import Mathlib

/-!
Verification of the `storevirtual-installer` deployer
(`src/storevirtual_installer/deployer.py`, error classes in
`src/storevirtual_installer/vsa_excs.py`).

The Python `Deployer` class orchestrates provisioning of a VSA VM:
it loads JSON configuration, resolves disks, assembles an installer
input document, defines/starts a libvirt network and a storage pool,
invokes an external installer, and tears everything down on demand.
External collaborators (libvirt, `virsh`, the installer binary, the
filesystem) are modelled by an explicit environment `Env` that fixes
the outcome of every external call; the orchestration code is
translated statement by statement into functions that return the list
of external calls issued (the trace) together with the Python-level
outcome (normal return, raised exception, or `sys.exit`).
-/

namespace StorevirtualInstaller

/-- External calls issued by the deployer, in the order the Python code
issues them.  One constructor per distinct external operation. -/
inductive Event
  | readInputs      -- `_read_inputs` entered (network config read + disk resolution)
  | createInput     -- installer binary invoked with `-create-default-json`
  | initJson        -- `_initialize_default_json` entered (document assembly)
  | netDefine       -- `virsh net-define`
  | netStart        -- `virsh net-start`
  | netAutostart    -- `virsh net-autostart`
  | poolDefine      -- `virsh pool-define`
  | poolStart       -- `virsh pool-start`
  | poolAutostart   -- `virsh pool-autostart`
  | installerRun    -- installer binary invoked with `-no-prompt`
  | updateConfig    -- `_update_vsa_config` rewrite of the config file
  | domAutostart    -- `virsh autostart <host>`
  | netDestroy      -- `network.destroy()`
  | netUndefine     -- `network.undefine()`
  | poolDestroy     -- `storage_pool.destroy()`
  | poolUndefine    -- `storage_pool.undefine()`
  | domDestroy      -- `vsa_domain.destroy()`
  | domUndefine     -- `vsa_domain.undefine()`
  | rmtreePool      -- `shutil.rmtree(self.pool_location, ignore_errors=True)`
  deriving DecidableEq, Repr

/-- The exception classes of `vsa_excs.py` that the orchestration paths
can raise (one constructor per class used by `deployer.py`). -/
inductive VsaError
  | jsonParseException
  | diskFileError
  | netmaskRetrieveFailed
  | computeGatewayFailed
  | invalidInputException
  | defaultJSONCreationFailed
  | deviceValidationFailed
  | defaultJSONInitializationFailed
  | bridgeCreationFailed
  | storagePoolCreationFailed
  | vmCreateFailed
  | domainDestroyFailed
  | poolDestroyFailed
  | networkDestroyFailed
  | updateConfigFailed
  | destroyFailed
  | vsaStatusFailed
  deriving DecidableEq, Repr

/-- Outcome of the whole Python process for one entry point. -/
inductive ProcResult
  | exited (code : Nat)   -- `sys.exit(code)`
  | raised (e : VsaError) -- an exception escaped the entry point
  | finished              -- the entry point returned normally
  deriving DecidableEq, Repr

/-- The environment fixes the outcome of every external call the
deployer can make: configuration file loads, the libvirt lookups and
state queries, and the exit code of every shell command.  A field is
read at the moment the Python code performs the corresponding call. -/
structure Env where
  configOk : Bool               -- `VSA_CONFIG_FILE` loads and parses
  vmLookup : Option Nat         -- `lookupByName`: `some s` = found, state code `s`
  libvirtErrCode : Nat          -- `virGetLastError()[0]` after a failed lookup
  readInputsErr : Option VsaError -- exception raised by `_read_inputs`, if any
  totalDisks : Nat              -- `len(self.disks)` after disk resolution
  isAOEnabled : Bool            -- constructor argument `is_AO_capable`
  createDefaultRC : Nat         -- exit code of the `-create-default-json` command
  initJsonOk : Bool             -- `_initialize_default_json` body succeeds
  netTemplateOk : Bool          -- network template read + substitution succeeds
  netDefineRC : Nat             -- exit code of `virsh net-define`
  netStartRC : Nat              -- exit code of `virsh net-start` (ignored by the code)
  netAutostartRC : Nat          -- exit code of `virsh net-autostart` (ignored)
  poolTemplateOk : Bool         -- pool template read + substitution succeeds
  poolDefineRC : Nat            -- exit code of `virsh pool-define`
  poolStartRC : Nat             -- exit code of `virsh pool-start` (ignored)
  poolAutostartRC : Nat         -- exit code of `virsh pool-autostart` (ignored)
  installerRC : Nat             -- exit code of the `-no-prompt` install command
  updateConfigOk : Bool         -- rewrite of the config file succeeds
  autostart : Bool              -- `vsa_config.autostart == 'True'`
  netLookupOk : Bool            -- `networkLookupByName` succeeds
  netDestroyOk : Bool           -- `network.destroy()` succeeds
  netUndefineOk : Bool          -- `network.undefine()` succeeds
  poolLookupOk : Bool           -- `storagePoolLookupByName` succeeds
  poolDestroyOk : Bool          -- `storage_pool.destroy()` succeeds
  poolUndefineOk : Bool         -- `storage_pool.undefine()` succeeds
  domLookupOk : Bool            -- `lookupByName` succeeds in `_vsa_domain_destroy`
  domDestroyOk : Bool           -- `vsa_domain.destroy()` succeeds
  domUndefineOk : Bool          -- `vsa_domain.undefine()` succeeds
  deriving DecidableEq, Repr

/-- Sequence two statements of the Python code: if the first raises,
its exception propagates and the second is never executed; otherwise
the traces concatenate. -/
def seqStep (a b : List Event × Except VsaError Unit) :
    List Event × Except VsaError Unit :=
  match a with
  | (t, .error e) => (t, .error e)
  | (t, .ok _) => (t ++ b.1, b.2)

/-- `Deployer._get_vsa_vm_status`: return the domain's state code; on a
lookup failure call `_report_libvirt_error`, which returns silently when
the last libvirt error code is 42 (domain not found, status reported as
0) and raises `VsaStatusFailed` otherwise. -/
def get_vsa_vm_status (env : Env) : Except VsaError Nat :=
  match env.vmLookup with
  | some s => .ok s
  | none => if env.libvirtErrCode = 42 then .ok 0 else .error .vsaStatusFailed

/-- `Deployer._pre_install_vsa`: load the appliance config, query the VM
status, and report whether the guard fires (`true` = the script exits 0
because the status code is 1 or 3). -/
def pre_install_vsa (env : Env) : Except VsaError Bool :=
  if env.configOk then
    match get_vsa_vm_status env with
    | .ok s => .ok (s == 1 || s == 3)
    | .error e => .error e
  else .error .jsonParseException

/-- `Deployer._read_inputs`: reads network config, appliance config and
resolves disks; any failure of those reads surfaces as the recorded
exception. -/
def read_inputs (env : Env) : List Event × Except VsaError Unit :=
  match env.readInputsErr with
  | some e => ([.readInputs], .error e)
  | none => ([.readInputs], .ok ())

/-- `Deployer._create_installer_input_json`: zero disks is a fatal input
error; auto-tiering with at most one disk is a fatal input error;
otherwise the installer is invoked with `-create-default-json` and a
non-zero exit code raises `DefaultJSONCreationFailed`. -/
def create_installer_input_json (env : Env) : List Event × Except VsaError Unit :=
  if env.totalDisks = 0 then ([], .error .invalidInputException)
  else if env.isAOEnabled ∧ ¬ 1 < env.totalDisks then
    ([], .error .invalidInputException)
  else if env.createDefaultRC ≠ 0 then
    ([.createInput], .error .defaultJSONCreationFailed)
  else ([.createInput], .ok ())

/-- `Deployer._initialize_default_json`: the whole body is wrapped in a
`try/except Exception` that re-raises `DefaultJSONInitializationFailed`.
The per-disk fill logic is modelled separately below. -/
def initialize_default_json (env : Env) : List Event × Except VsaError Unit :=
  if env.initJsonOk then ([.initJson], .ok ())
  else ([.initJson], .error .defaultJSONInitializationFailed)

/-- `Deployer._virtual_network_define`: issue `virsh net-define`; only
when it exits 0 issue `net-start` then `net-autostart` (whose exit codes
are discarded); a non-zero define exit raises `BridgeCreationFailed`. -/
def virtual_network_define (env : Env) : List Event × Except VsaError Unit :=
  if env.netDefineRC = 0 then
    ([.netDefine, .netStart, .netAutostart], .ok ())
  else ([.netDefine], .error .bridgeCreationFailed)

/-- `Deployer._virtual_storage_pool_define`: issue `virsh pool-define`;
only when it exits 0 issue `pool-start` then `pool-autostart` (exit
codes discarded); a non-zero define exit raises
`StoragePoolCreationFailed`. -/
def virtual_storage_pool_define (env : Env) : List Event × Except VsaError Unit :=
  if env.poolDefineRC = 0 then
    ([.poolDefine, .poolStart, .poolAutostart], .ok ())
  else ([.poolDefine], .error .storagePoolCreationFailed)

/-- `Deployer._create_bridge`: render the network template and call
`_virtual_network_define`; any exception is re-raised as
`BridgeCreationFailed` (which is the only exception the inner call
raises anyway). -/
def create_bridge (env : Env) : List Event × Except VsaError Unit :=
  if env.netTemplateOk then virtual_network_define env
  else ([], .error .bridgeCreationFailed)

/-- `Deployer._create_storage_pool`: render the pool template and call
`_virtual_storage_pool_define`; any exception is re-raised as
`StoragePoolCreationFailed`. -/
def create_storage_pool (env : Env) : List Event × Except VsaError Unit :=
  if env.poolTemplateOk then virtual_storage_pool_define env
  else ([], .error .storagePoolCreationFailed)

/-- `Deployer._create_vsa_vm`: run the installer; non-zero exit raises
`VMCreateFailed`; on success update the persisted config (which may
raise `UpdateConfigFailed`) and, if autostart was configured, issue
`virsh autostart`. -/
def create_vsa_vm (env : Env) : List Event × Except VsaError Unit :=
  if env.installerRC ≠ 0 then ([.installerRun], .error .vmCreateFailed)
  else if ¬ env.updateConfigOk then
    ([.installerRun, .updateConfig], .error .updateConfigFailed)
  else if env.autostart then
    ([.installerRun, .updateConfig, .domAutostart], .ok ())
  else ([.installerRun, .updateConfig], .ok ())

/-- `Deployer._vsa_network_destroy`: look the network up, destroy it,
undefine it; any failure raises `NetworkDestroyFailed`. -/
def vsa_network_destroy (env : Env) : List Event × Except VsaError Unit :=
  if ¬ env.netLookupOk then ([], .error .networkDestroyFailed)
  else if ¬ env.netDestroyOk then ([.netDestroy], .error .networkDestroyFailed)
  else if ¬ env.netUndefineOk then
    ([.netDestroy, .netUndefine], .error .networkDestroyFailed)
  else ([.netDestroy, .netUndefine], .ok ())

/-- `Deployer._vsa_storage_pool_destroy`: look the pool up, destroy it,
undefine it; any failure raises `PoolDestroyFailed`. -/
def vsa_storage_pool_destroy (env : Env) : List Event × Except VsaError Unit :=
  if ¬ env.poolLookupOk then ([], .error .poolDestroyFailed)
  else if ¬ env.poolDestroyOk then ([.poolDestroy], .error .poolDestroyFailed)
  else if ¬ env.poolUndefineOk then
    ([.poolDestroy, .poolUndefine], .error .poolDestroyFailed)
  else ([.poolDestroy, .poolUndefine], .ok ())

/-- `Deployer._vsa_domain_destroy`: look the domain up, destroy it,
undefine it; any failure raises `DomainDestroyFailed`. -/
def vsa_domain_destroy (env : Env) : List Event × Except VsaError Unit :=
  if ¬ env.domLookupOk then ([], .error .domainDestroyFailed)
  else if ¬ env.domDestroyOk then ([.domDestroy], .error .domainDestroyFailed)
  else if ¬ env.domUndefineOk then
    ([.domDestroy, .domUndefine], .error .domainDestroyFailed)
  else ([.domDestroy, .domUndefine], .ok ())

/-- `Deployer._roll_back_installation`: destroy the network, then the
storage pool; a network-destroy exception propagates before the pool
step runs. -/
def roll_back_installation (env : Env) : List Event × Except VsaError Unit :=
  seqStep (vsa_network_destroy env) (vsa_storage_pool_destroy env)

/-- The body of the `try` block of `Deployer.install_vsa`, in source
order: read inputs, create the installer input skeleton, initialise the
default JSON, create the bridge, create the storage pool, create the
VM. -/
def install_forward (env : Env) : List Event × Except VsaError Unit :=
  seqStep (read_inputs env)
    (seqStep (create_installer_input_json env)
      (seqStep (initialize_default_json env)
        (seqStep (create_bridge env)
          (seqStep (create_storage_pool env) (create_vsa_vm env)))))

/-- `Deployer.install_vsa`: run the pre-install guard (exiting 0 when
the VM is already present in state 1 or 3), then the forward workflow;
`StoragePoolCreationFailed` triggers rollback branch A (network destroy,
exit 1), `VMCreateFailed` triggers rollback branch B (`_roll_back_installation`,
exit 1); every other exception propagates out of the script. -/
def install_vsa (env : Env) : List Event × ProcResult :=
  match pre_install_vsa env with
  | .error e => ([], .raised e)
  | .ok true => ([], .exited 0)
  | .ok false =>
    match install_forward env with
    | (t, .ok _) => (t, .finished)
    | (t, .error .storagePoolCreationFailed) =>
      match vsa_network_destroy env with
      | (t2, .ok _) => (t ++ t2, .exited 1)
      | (t2, .error e) => (t ++ t2, .raised e)
    | (t, .error .vmCreateFailed) =>
      match roll_back_installation env with
      | (t2, .ok _) => (t ++ t2, .exited 1)
      | (t2, .error e) => (t ++ t2, .raised e)
    | (t, .error e) => (t, .raised e)

/-- `Deployer.destroy_vsa`: load the config, destroy the domain, the
network, the pool, then remove the pool directory (errors ignored).
The surrounding `try/except IOError` never fires on these sub-steps:
every sub-step raises a `VSAException` subclass, not `IOError`, so a
sub-step exception propagates and stops the sequence. -/
def destroy_vsa (env : Env) : List Event × Except VsaError Unit :=
  if env.configOk then
    match seqStep (vsa_domain_destroy env)
        (seqStep (vsa_network_destroy env) (vsa_storage_pool_destroy env)) with
    | (t, .error e) => (t, .error e)
    | (t, .ok _) => (t ++ [.rmtreePool], .ok ())
  else ([], .error .jsonParseException)

/-! Persisted appliance record and `_update_vsa_config`. -/

/-- The mutable lifecycle fields of the `vsa_config` record. -/
structure VsaRecord where
  created_at : String
  updated_at : String
  file_access_count : Int
  deriving DecidableEq, Repr

/-- `Deployer._update_vsa_config` restricted to the record it rewrites:
on a fresh deployment (`created_at == ""`) both timestamps are set to
the current time; otherwise only `updated_at` is refreshed and
`file_access_count` is incremented. -/
def update_vsa_config (now : String) (r : VsaRecord) : VsaRecord :=
  if r.created_at = "" then
    { r with created_at := now, updated_at := now }
  else
    { r with updated_at := now, file_access_count := r.file_access_count + 1 }

/-! Disk validation (`_validate_disks`). -/

/-- `Deployer._validate_disks`: walk the assigned disks and raise
`DeviceValidationFailed` at the first one that the host probe did not
report; purely a check, it modifies nothing. -/
def validate_disks : List String → List String → Except VsaError Unit
  | [], _ => .ok ()
  | d :: ds, host =>
    if host.contains d then validate_disks ds host
    else .error .deviceValidationFailed

/-! JSON loading (`_read_json`). -/

/-- Result of opening a file: an `IOError` with a message, or the file
contents. -/
inductive FileOutcome
  | ioError (msg : String)
  | content (s : String)
  deriving DecidableEq, Repr

/-- The Python-level exceptions `_read_json` can produce: the wrapped
`JsonParseException`, or the `ValueError` that `json.load` raises on
contents that are not valid JSON (which the code does not catch). -/
inductive PyError
  | jsonParseException (msg : String)
  | valueError (msg : String)
  deriving DecidableEq, Repr

/-- `Deployer._read_json`: open the file and parse it with `json.load`
(modelled by the `parse` collaborator).  Only `IOError` is caught and
wrapped into `JsonParseException` with a message naming the path; a
parse failure raises `json.load`'s own `ValueError` uncaught. -/
def read_json {α : Type} (path : String) (fs : String → FileOutcome)
    (parse : String → Option α) : Except PyError α :=
  match fs path with
  | .ioError m =>
    .error (.jsonParseException ("Failed to load " ++ path ++ " " ++ m))
  | .content s =>
    match parse s with
    | some j => .ok j
    | none => .error (.valueError "No JSON object could be decoded")

/-- True when `_read_json` surfaced the failure as its own
`JsonParseException` (the spec's ConfigError); false for a raw
`ValueError` or a success. -/
def raisedConfigError {α : Type} : Except PyError α → Bool
  | .error (.jsonParseException _) => true
  | _ => false

/-! Netmask retrieval (`_get_netmask_from_interface`). -/

/-- The fields `_read_network_input` extracts from the network config
file. -/
structure NetworkConfig where
  v_bridge_name : String
  v_bridge_ip : String
  v_interface : String
  vsa_ip : String
  deriving DecidableEq, Repr

/-- `Deployer._get_netmask_from_interface`: query the SIOCGIFNETMASK
ioctl (modelled by `ifNetmask`, mapping an interface name to its
netmask when the interface exists and is configured).  The source packs
`self.v_bridge_name` into the ioctl request, even though its docstring
and its error message speak of the interface (`self.v_interface`); a
failed query raises `NetmaskRetrieveFailed`. -/
def get_netmask_from_interface (cfg : NetworkConfig)
    (ifNetmask : String → Option String) : Except VsaError String :=
  match ifNetmask cfg.v_bridge_name with
  | some nm => .ok nm
  | none => .error .netmaskRetrieveFailed

/-! Disk-assignment fill loops of `_initialize_default_json`. -/

/-- One entry of the `Disks` list of the installer input document; the
fields the fill loops may overlay.  `none` means the loop did not write
the field (the skeleton's value, whatever it was, is kept). -/
structure DiskEntry where
  location : Option String
  size : Option String
  tier : Option String
  deriving DecidableEq, Repr

/-- A skeleton entry as produced before any overlay. -/
def freshEntry : DiskEntry := { location := none, size := none, tier := none }

/-- The no-tier-file auto-tiering loop of `_initialize_default_json`:
for each skeleton entry, if `self.disks[counter]` is `/dev/sdb` the
entry is labeled `Tier 0` (and `counter` is NOT advanced); otherwise
the entry gets `Tier 1`, the device as `Location`, an empty `Size`, and
`counter` advances.  `none` models the uncaught `IndexError` when
`counter` runs past the disk list. -/
def fill_disks_no_tier (disks : List String) :
    Nat → List DiskEntry → Option (List DiskEntry)
  | _, [] => some []
  | counter, e :: es =>
    match disks[counter]? with
    | none => none
    | some d =>
      if d = "/dev/sdb" then
        (fill_disks_no_tier disks counter es).map
          (fun r => { e with tier := some "Tier 0" } :: r)
      else
        (fill_disks_no_tier disks (counter + 1) es).map
          (fun r =>
            { e with tier := some "Tier 1", location := some d,
                     size := some "" } :: r)

/-- The tier-file auto-tiering loop of `_initialize_default_json`:
while `tier0count` is non-zero the entry gets
`tier0List[tier0count - 1]` as `Location` (walking the Tier-0 list
backwards) and an empty `Size`, with no `Tier` written; afterwards,
while `tier1count > 0` the entry gets `tier1List[tier_1_counter]`
(walking the Tier-1 list forwards), the label `Tier 1`, and an empty
`Size`.  `none` models an uncaught `IndexError`. -/
def fill_disks_tiered (tier0List tier1List : List String) :
    Nat → Nat → Nat → List DiskEntry → Option (List DiskEntry)
  | _, _, _, [] => some []
  | t0c, t1c, t1i, e :: es =>
    if t0c ≠ 0 then
      match tier0List[t0c - 1]? with
      | none => none
      | some d =>
        (fill_disks_tiered tier0List tier1List (t0c - 1) t1c t1i es).map
          (fun r => { e with location := some d, size := some "" } :: r)
    else if 0 < t1c then
      match tier1List[t1i]? with
      | none => none
      | some d =>
        (fill_disks_tiered tier0List tier1List t0c (t1c - 1) (t1i + 1) es).map
          (fun r =>
            { e with location := some d, tier := some "Tier 1",
                     size := some "" } :: r)
    else
      (fill_disks_tiered tier0List tier1List t0c t1c t1i es).map
        (fun r => e :: r)

/-- The overlay the tier-file loop applies to a Tier-0 slot: location
and size only, the `tier` field is left untouched. -/
def fillTier0Slot (d : String) (e : DiskEntry) : DiskEntry :=
  { e with location := some d, size := some "" }

/-- The overlay the tier-file loop applies to a Tier-1 slot. -/
def fillTier1Slot (d : String) (e : DiskEntry) : DiskEntry :=
  { e with location := some d, tier := some "Tier 1", size := some "" }

/-- `Deployer._make_list_from_tiered`: the flat disk list is the Tier-0
list followed by the Tier-1 list (each contributed only when it has a
truthy element; modelled for non-degenerate lists). -/
def make_list_from_tiered (tier0List tier1List : List String) : List String :=
  (if tier0List.any (fun s => s ≠ "") then tier0List else []) ++
  (if tier1List.any (fun s => s ≠ "") then tier1List else [])

/-! Concrete environments and collaborators used in witnesses and
counterexamples. -/

/-- An environment in which every external call succeeds and the VM is
not yet present (lookup fails with libvirt error 42). -/
def baseEnv : Env :=
  { configOk := true, vmLookup := none, libvirtErrCode := 42,
    readInputsErr := none, totalDisks := 2, isAOEnabled := false,
    createDefaultRC := 0, initJsonOk := true,
    netTemplateOk := true, netDefineRC := 0, netStartRC := 0, netAutostartRC := 0,
    poolTemplateOk := true, poolDefineRC := 0, poolStartRC := 0,
    poolAutostartRC := 0, installerRC := 0, updateConfigOk := true,
    autostart := false, netLookupOk := true, netDestroyOk := true,
    netUndefineOk := true, poolLookupOk := true, poolDestroyOk := true,
    poolUndefineOk := true, domLookupOk := true, domDestroyOk := true,
    domUndefineOk := true }

/-- Rollback branch A scenario: network provisioning succeeds, then
`virsh pool-define` exits 1. -/
def envBranchA : Env := { baseEnv with poolDefineRC := 1 }

/-- A file system in which every file opens but holds text that is not
valid JSON. -/
def fsBadJson : String → FileOutcome := fun _ => .content "not json"

/-- A file system in which every open raises `IOError`. -/
def fsMissing : String → FileOutcome :=
  fun _ => .ioError "No such file or directory"

/-- A `json.load` collaborator that rejects every document. -/
def parseNone : String → Option Nat := fun _ => none

/-- A host on which the physical interface eth0 is configured with
netmask 255.255.255.0 and no other interface answers the netmask
ioctl (in particular the VSA bridge does not exist yet, as is the case
on every fresh install, since the bridge is only defined later by
`_create_bridge`). -/
def hostIfNetmask : String → Option String := fun name =>
  if name = "eth0" then some "255.255.255.0" else none

/-- A network configuration naming eth0 as the physical interface and
vsabr0 as the bridge. -/
def netCfgBug : NetworkConfig :=
  { v_bridge_name := "vsabr0", v_bridge_ip := "192.168.1.1",
    v_interface := "eth0", vsa_ip := "192.168.1.20" }

/-! Shared inversion lemmas about the step functions. -/

theorem read_inputs_ok {env : Env} (h : (read_inputs env).2 = .ok ()) :
    read_inputs env = ([.readInputs], .ok ()) := by
  unfold read_inputs at *
  cases henv : env.readInputsErr <;> simp_all

theorem create_installer_input_json_ok {env : Env}
    (h : (create_installer_input_json env).2 = .ok ()) :
    create_installer_input_json env = ([.createInput], .ok ()) := by
  unfold create_installer_input_json at *
  split at h
  · simp_all
  · split at h
    · simp_all
    · split at h <;> simp_all

theorem initialize_default_json_ok {env : Env}
    (h : (initialize_default_json env).2 = .ok ()) :
    initialize_default_json env = ([.initJson], .ok ()) := by
  unfold initialize_default_json at *
  split at h <;> simp_all

theorem create_bridge_ok {env : Env} (h : (create_bridge env).2 = .ok ()) :
    create_bridge env = ([.netDefine, .netStart, .netAutostart], .ok ()) := by
  unfold create_bridge virtual_network_define at *
  split at h
  · split at h <;> simp_all
  · simp_all

theorem create_storage_pool_err {env : Env} {e : VsaError}
    (h : (create_storage_pool env).2 = .error e) :
    create_storage_pool env = ([], .error .storagePoolCreationFailed) ∨
    create_storage_pool env = ([.poolDefine], .error .storagePoolCreationFailed) := by
  unfold create_storage_pool virtual_storage_pool_define at *
  split at h
  · split at h <;> simp_all
  · simp_all

theorem vsa_network_destroy_ok {env : Env}
    (h : env.netLookupOk = true) (h2 : env.netDestroyOk = true)
    (h3 : env.netUndefineOk = true) :
    vsa_network_destroy env = ([.netDestroy, .netUndefine], .ok ()) := by
  simp [vsa_network_destroy, h, h2, h3]

theorem vsa_domain_destroy_counts (env : Env) :
    (vsa_domain_destroy env).1.count .netDestroy = 0 ∧
    (vsa_domain_destroy env).1.count .poolDestroy = 0 ∧
    (vsa_domain_destroy env).1.count .rmtreePool = 0 := by
  unfold vsa_domain_destroy
  split <;> [decide; split] <;> [decide; split] <;> decide

theorem vsa_network_destroy_counts (env : Env) :
    (vsa_network_destroy env).1.count .poolDestroy = 0 ∧
    (vsa_network_destroy env).1.count .rmtreePool = 0 := by
  unfold vsa_network_destroy
  split <;> [decide; split] <;> [decide; split] <;> decide

theorem vsa_storage_pool_destroy_counts (env : Env) :
    (vsa_storage_pool_destroy env).1.count .rmtreePool = 0 := by
  unfold vsa_storage_pool_destroy
  split <;> [decide; split] <;> [decide; split] <;> decide

theorem vsa_domain_destroy_ok_inv {env : Env}
    (h : (vsa_domain_destroy env).2 = .ok ()) :
    vsa_domain_destroy env = ([.domDestroy, .domUndefine], .ok ()) := by
  unfold vsa_domain_destroy at *
  split at h
  · simp_all
  · split at h
    · simp_all
    · split at h <;> simp_all

theorem vsa_network_destroy_ok_inv {env : Env}
    (h : (vsa_network_destroy env).2 = .ok ()) :
    vsa_network_destroy env = ([.netDestroy, .netUndefine], .ok ()) := by
  unfold vsa_network_destroy at *
  split at h
  · simp_all
  · split at h
    · simp_all
    · split at h <;> simp_all

theorem vsa_storage_pool_destroy_ok_inv {env : Env}
    (h : (vsa_storage_pool_destroy env).2 = .ok ()) :
    vsa_storage_pool_destroy env = ([.poolDestroy, .poolUndefine], .ok ()) := by
  unfold vsa_storage_pool_destroy at *
  split at h
  · simp_all
  · split at h
    · simp_all
    · split at h <;> simp_all

theorem vsa_domain_destroy_err_kind {env : Env} {t : List Event} {e : VsaError}
    (h : vsa_domain_destroy env = (t, .error e)) : e = .domainDestroyFailed := by
  unfold vsa_domain_destroy at h
  split at h <;> [simp_all; split at h] <;> [simp_all; split at h] <;> simp_all

theorem vsa_network_destroy_err_kind {env : Env} {t : List Event} {e : VsaError}
    (h : vsa_network_destroy env = (t, .error e)) : e = .networkDestroyFailed := by
  unfold vsa_network_destroy at h
  split at h <;> [simp_all; split at h] <;> [simp_all; split at h] <;> simp_all

theorem vsa_storage_pool_destroy_err_kind {env : Env} {t : List Event} {e : VsaError}
    (h : vsa_storage_pool_destroy env = (t, .error e)) : e = .poolDestroyFailed := by
  unfold vsa_storage_pool_destroy at h
  split at h <;> [simp_all; split at h] <;> [simp_all; split at h] <;> simp_all

/-! Claim C9: disk validation. -/

/-- C9: `_validate_disks` raises `DeviceValidationFailed` if and only if
some assigned disk path is absent from the discovered host device list;
when every assigned path is present it succeeds (and, being a pure
check, changes nothing). -/
theorem validate_disks_iff (assigned discovered : List String) :
    (validate_disks assigned discovered = .error .deviceValidationFailed ↔
      ∃ d ∈ assigned, d ∉ discovered) ∧
    (validate_disks assigned discovered = .ok () ↔
      ∀ d ∈ assigned, d ∈ discovered) := by
  induction assigned with
  | nil => simp [validate_disks]
  | cons d ds ih =>
    by_cases h : d ∈ discovered <;>
      simp [validate_disks, List.contains, List.elem_eq_mem, h, ih]

theorem validate_disks_iff_witness :
    validate_disks ["/dev/sdb"] ["/dev/sdb", "/dev/sdc"] = .ok () :=
  (validate_disks_iff ["/dev/sdb"] ["/dev/sdb", "/dev/sdc"]).2.mpr (by decide)

/-! Claim C8: touch semantics of the appliance config record. -/

/-- C8: on a record with empty `created_at`, `_update_vsa_config` sets
`created_at` equal to `updated_at` and leaves `file_access_count`
unchanged; on a record with non-empty `created_at` it leaves
`created_at` unchanged, sets `updated_at` to the current time, and
increments `file_access_count` by exactly one. -/
theorem update_vsa_config_touch (now : String) (r : VsaRecord) :
    (r.created_at = "" →
      (update_vsa_config now r).created_at = (update_vsa_config now r).updated_at ∧
      (update_vsa_config now r).file_access_count = r.file_access_count) ∧
    (r.created_at ≠ "" →
      (update_vsa_config now r).created_at = r.created_at ∧
      (update_vsa_config now r).updated_at = now ∧
      (update_vsa_config now r).file_access_count = r.file_access_count + 1) := by
  constructor <;> intro h <;> simp [update_vsa_config, h]

theorem update_vsa_config_touch_witness :
    ((update_vsa_config "T1" ⟨"", "", 0⟩).created_at =
      (update_vsa_config "T1" ⟨"", "", 0⟩).updated_at ∧
     (update_vsa_config "T1" ⟨"", "", 0⟩).file_access_count = 0) ∧
    ((update_vsa_config "T2" ⟨"T1", "T1", 0⟩).created_at = "T1" ∧
     (update_vsa_config "T2" ⟨"T1", "T1", 0⟩).updated_at = "T2" ∧
     (update_vsa_config "T2" ⟨"T1", "T1", 0⟩).file_access_count = 1) :=
  ⟨(update_vsa_config_touch "T1" ⟨"", "", 0⟩).1 rfl,
   (update_vsa_config_touch "T2" ⟨"T1", "T1", 0⟩).2 (by decide)⟩

/-! Claim C6: configuration loading. -/

/-- C6 counterexample: on a file whose contents are not parseable JSON,
`_read_json` does not raise its `JsonParseException` (the ConfigError of
the spec) at all — the `ValueError` from `json.load` escapes uncaught,
and its message does not name the failing path. -/
theorem read_json_config_error_counterexample :
    read_json "vsa_config.json" fsBadJson parseNone =
      .error (.valueError "No JSON object could be decoded") ∧
    raisedConfigError (read_json "vsa_config.json" fsBadJson parseNone) = false :=
  ⟨rfl, rfl⟩

/-- C6 amended: `_read_json` raises its ConfigError
(`JsonParseException`), with a message naming the failing path, exactly
for missing/unreadable files (`IOError`); contents that are not valid
JSON instead let the parser's own `ValueError` escape, and a parseable
file is returned as data. -/
theorem read_json_amended {α : Type} (path : String) (fs : String → FileOutcome)
    (parse : String → Option α) :
    (∀ m, fs path = .ioError m →
      read_json path fs parse =
        .error (.jsonParseException ("Failed to load " ++ path ++ " " ++ m))) ∧
    (∀ s, fs path = .content s → parse s = none →
      read_json path fs parse =
        .error (.valueError "No JSON object could be decoded")) ∧
    (∀ s j, fs path = .content s → parse s = some j →
      read_json path fs parse = .ok j) := by
  refine ⟨fun m hm => by simp [read_json, hm],
          fun s hs hp => by simp [read_json, hs, hp],
          fun s j hs hp => by simp [read_json, hs, hp]⟩

theorem read_json_amended_witness :
    read_json "vsa_config.json" fsMissing parseNone =
      .error (.jsonParseException
        ("Failed to load " ++ "vsa_config.json" ++ " " ++
         "No such file or directory")) :=
  (read_json_amended "vsa_config.json" fsMissing parseNone).1
    "No such file or directory" rfl

/-! Claim C7: netmask source interface. -/

/-- C7: `_get_netmask_from_interface` packs `self.v_bridge_name` — not
the physical-interface field `self.v_interface` that its own docstring
and error message refer to — into the netmask ioctl.  On a host where
the named interface eth0 is resolvable but the (not yet created) bridge
vsabr0 is not, provisioning aborts with `NetmaskRetrieveFailed` even
though the netmask is resolvable from the named interface. -/
theorem netmask_queries_bridge_name_bug :
    get_netmask_from_interface netCfgBug hostIfNetmask =
      .error .netmaskRetrieveFailed ∧
    hostIfNetmask netCfgBug.v_interface = some "255.255.255.0" ∧
    netCfgBug.v_interface ≠ netCfgBug.v_bridge_name :=
  ⟨rfl, rfl, by decide⟩

/-! Claim C3: no-tier-file auto-tiering policy. -/

/-- C3: in the no-tier-file auto-tiering branch the counter is not
advanced when the `/dev/sdb` comparison matches, so with discovered
disks [/dev/sdb, /dev/sdc] (in probe order) BOTH skeleton entries are
labeled Tier 0 and /dev/sdc is never assigned a Location — not exactly
one Tier-0 entry with every other device given its own Location and
Tier 1. -/
theorem no_tier_sdb_policy_bug :
    fill_disks_no_tier ["/dev/sdb", "/dev/sdc"] 0 [freshEntry, freshEntry] =
      some [{ freshEntry with tier := some "Tier 0" },
            { freshEntry with tier := some "Tier 0" }] ∧
    ((fill_disks_no_tier ["/dev/sdb", "/dev/sdc"] 0
        [freshEntry, freshEntry]).getD []).countP
      (fun e => e.tier == some "Tier 0") = 2 ∧
    ((fill_disks_no_tier ["/dev/sdb", "/dev/sdc"] 0
        [freshEntry, freshEntry]).getD []).countP
      (fun e => e.location == some "/dev/sdc") = 0 :=
  ⟨rfl, rfl, rfl⟩

/-! Claim C5: defineAndStart. -/

/-- C5 counterexample: with a successful define but a failing start
command (exit code 7), `_virtual_network_define` raises nothing — the
start exit code is discarded by the code — refuting that a ProvisionError
is raised whenever the start command reports failure. -/
theorem define_start_ignored_counterexample :
    ({ baseEnv with netStartRC := 7 } : Env).netStartRC ≠ 0 ∧
    (virtual_network_define { baseEnv with netStartRC := 7 }).2 = .ok () ∧
    Event.netStart ∈ (virtual_network_define { baseEnv with netStartRC := 7 }).1 :=
  ⟨by decide, rfl, by decide⟩

/-- C5 amended: `_virtual_network_define` raises its ProvisionError
(`BridgeCreationFailed`) exactly when the define command exits non-zero,
and `_virtual_storage_pool_define` raises `StoragePoolCreationFailed`
exactly when its define command exits non-zero; the start/autostart exit
codes are ignored; and whenever define fails, start and autostart are
not issued at all. -/
theorem define_and_start_amended (env : Env) :
    (((virtual_network_define env).2 = .error .bridgeCreationFailed ↔
        env.netDefineRC ≠ 0) ∧
      (env.netDefineRC ≠ 0 →
        Event.netStart ∉ (virtual_network_define env).1 ∧
        Event.netAutostart ∉ (virtual_network_define env).1)) ∧
    (((virtual_storage_pool_define env).2 = .error .storagePoolCreationFailed ↔
        env.poolDefineRC ≠ 0) ∧
      (env.poolDefineRC ≠ 0 →
        Event.poolStart ∉ (virtual_storage_pool_define env).1 ∧
        Event.poolAutostart ∉ (virtual_storage_pool_define env).1)) := by
  by_cases h : env.netDefineRC = 0 <;> by_cases h2 : env.poolDefineRC = 0 <;>
    simp [virtual_network_define, virtual_storage_pool_define, h, h2]

theorem define_and_start_amended_witness :
    (virtual_network_define { baseEnv with netDefineRC := 2 }).2 =
      .error .bridgeCreationFailed ∧
    Event.netStart ∉ (virtual_network_define { baseEnv with netDefineRC := 2 }).1 :=
  ⟨((define_and_start_amended { baseEnv with netDefineRC := 2 }).1.1).mpr
      (by decide),
   (((define_and_start_amended { baseEnv with netDefineRC := 2 }).1.2)
      (by decide)).1⟩

/-! Claim C1: rollback branch A. -/

/-- C1: in every install run in which the pre-install guard lets the
workflow proceed, the steps up to and including network provisioning
succeed, and storage-pool provisioning then fails (which always
surfaces as `StoragePoolCreationFailed`), the orchestrator destroys and
undefines the just-created network exactly once, attempts no domain
destroy/undefine and no pool destroy/undefine, and exits with status
1. -/
theorem rollback_branch_A (env : Env) (s : Nat)
    (hc : env.configOk = true)
    (hs : get_vsa_vm_status env = .ok s) (hs1 : s ≠ 1) (hs3 : s ≠ 3)
    (hri : (read_inputs env).2 = .ok ())
    (hci : (create_installer_input_json env).2 = .ok ())
    (hij : (initialize_default_json env).2 = .ok ())
    (hnet : (create_bridge env).2 = .ok ())
    (hpool : (create_storage_pool env).2 = .error .storagePoolCreationFailed)
    (hnl : env.netLookupOk = true) (hnd : env.netDestroyOk = true)
    (hnu : env.netUndefineOk = true) :
    (install_vsa env).2 = .exited 1 ∧
    (install_vsa env).1.count .netDestroy = 1 ∧
    (install_vsa env).1.count .netUndefine = 1 ∧
    (install_vsa env).1.count .domDestroy = 0 ∧
    (install_vsa env).1.count .domUndefine = 0 ∧
    (install_vsa env).1.count .poolDestroy = 0 ∧
    (install_vsa env).1.count .poolUndefine = 0 := by
  have hpre : pre_install_vsa env = .ok (s == 1 || s == 3) := by
    simp [pre_install_vsa, hc, hs]
  have hb : (s == 1 || s == 3) = false := by simp [hs1, hs3]
  have e1 := read_inputs_ok hri
  have e2 := create_installer_input_json_ok hci
  have e3 := initialize_default_json_ok hij
  have e4 := create_bridge_ok hnet
  have e6 := vsa_network_destroy_ok hnl hnd hnu
  rcases create_storage_pool_err hpool with e5 | e5 <;>
    simp [install_vsa, hpre, hb, install_forward, seqStep, e1, e2, e3, e4,
      e5, e6]

theorem rollback_branch_A_witness :
    (install_vsa envBranchA).2 = .exited 1 ∧
    (install_vsa envBranchA).1.count .netDestroy = 1 ∧
    (install_vsa envBranchA).1.count .netUndefine = 1 ∧
    (install_vsa envBranchA).1.count .domDestroy = 0 ∧
    (install_vsa envBranchA).1.count .domUndefine = 0 ∧
    (install_vsa envBranchA).1.count .poolDestroy = 0 ∧
    (install_vsa envBranchA).1.count .poolUndefine = 0 :=
  rollback_branch_A envBranchA 0 rfl rfl (by decide) (by decide) rfl rfl rfl
    rfl rfl rfl rfl rfl

/-! Claim C2: teardown is fail-fast, not best-effort. -/

/-- C2 counterexample: with a domain whose lookup fails (so the domain
destroy+undefine sub-step raises `DomainDestroyFailed`) while the
network sub-step would succeed, `destroy_vsa` never attempts the
network destroy: the `try/except` only catches `IOError`, so the
`VSAException` propagates and stops the sequence. -/
theorem destroy_best_effort_counterexample :
    (vsa_network_destroy { baseEnv with domLookupOk := false }).2 = .ok () ∧
    destroy_vsa { baseEnv with domLookupOk := false } =
      ([], .error .domainDestroyFailed) ∧
    (destroy_vsa { baseEnv with domLookupOk := false }).1.count .netDestroy = 0 :=
  ⟨rfl, rfl, rfl⟩

/-- C2 amended: `destroy_vsa` is strictly sequential and stops at the
first failing sub-step.  Each sub-step failure is reported with its own
distinct error kind (`DomainDestroyFailed`, `NetworkDestroyFailed`,
`PoolDestroyFailed`), but a domain sub-step failure prevents the
network, pool and directory sub-steps, and a network sub-step failure
prevents the pool and directory sub-steps; only when every sub-step
succeeds is the pool directory removed. -/
theorem destroy_vsa_fail_fast (env : Env) (hc : env.configOk = true) :
    ((vsa_domain_destroy env).2 = .error .domainDestroyFailed →
      (destroy_vsa env).2 = .error .domainDestroyFailed ∧
      (destroy_vsa env).1.count .netDestroy = 0 ∧
      (destroy_vsa env).1.count .poolDestroy = 0 ∧
      (destroy_vsa env).1.count .rmtreePool = 0) ∧
    ((vsa_domain_destroy env).2 = .ok () →
      (vsa_network_destroy env).2 = .error .networkDestroyFailed →
      (destroy_vsa env).2 = .error .networkDestroyFailed ∧
      (destroy_vsa env).1.count .poolDestroy = 0 ∧
      (destroy_vsa env).1.count .rmtreePool = 0) ∧
    ((vsa_domain_destroy env).2 = .ok () →
      (vsa_network_destroy env).2 = .ok () →
      (vsa_storage_pool_destroy env).2 = .error .poolDestroyFailed →
      (destroy_vsa env).2 = .error .poolDestroyFailed ∧
      (destroy_vsa env).1.count .rmtreePool = 0) ∧
    ((vsa_domain_destroy env).2 = .ok () →
      (vsa_network_destroy env).2 = .ok () →
      (vsa_storage_pool_destroy env).2 = .ok () →
      destroy_vsa env = ([.domDestroy, .domUndefine, .netDestroy, .netUndefine,
        .poolDestroy, .poolUndefine, .rmtreePool], .ok ())) := by
  refine ⟨fun h1 => ?_, fun h1 h2 => ?_, fun h1 h2 h3 => ?_,
    fun h1 h2 h3 => ?_⟩
  · obtain ⟨c1, c2, c3⟩ := vsa_domain_destroy_counts env
    rcases hdd : vsa_domain_destroy env with ⟨td, rd⟩
    rw [hdd] at h1 c1 c2 c3
    simp only at h1 c1 c2 c3
    subst h1
    simp [destroy_vsa, hc, hdd, seqStep, c1, c2, c3]
  · have hd := vsa_domain_destroy_ok_inv h1
    obtain ⟨n1, n2⟩ := vsa_network_destroy_counts env
    rcases hnn : vsa_network_destroy env with ⟨tn, rn⟩
    rw [hnn] at h2 n1 n2
    simp only at h2 n1 n2
    subst h2
    simp [destroy_vsa, hc, hd, hnn, seqStep, List.count_append, n1, n2]
  · have hd := vsa_domain_destroy_ok_inv h1
    have hn := vsa_network_destroy_ok_inv h2
    have p1 := vsa_storage_pool_destroy_counts env
    rcases hpp : vsa_storage_pool_destroy env with ⟨tp, rp⟩
    rw [hpp] at h3 p1
    simp only at h3 p1
    subst h3
    simp [destroy_vsa, hc, hd, hn, hpp, seqStep, List.count_append, p1]
  · have hd := vsa_domain_destroy_ok_inv h1
    have hn := vsa_network_destroy_ok_inv h2
    have hp := vsa_storage_pool_destroy_ok_inv h3
    simp [destroy_vsa, hc, hd, hn, hp, seqStep]

theorem destroy_vsa_fail_fast_witness :
    (destroy_vsa { baseEnv with domDestroyOk := false }).2 =
      .error .domainDestroyFailed ∧
    (destroy_vsa { baseEnv with domDestroyOk := false }).1.count .netDestroy = 0 ∧
    (destroy_vsa { baseEnv with domDestroyOk := false }).1.count .poolDestroy = 0 ∧
    (destroy_vsa { baseEnv with domDestroyOk := false }).1.count .rmtreePool = 0 :=
  (destroy_vsa_fail_fast { baseEnv with domDestroyOk := false } rfl).1 rfl

/-! Claim C4: idempotency guard. -/

theorem install_forward_head (env : Env) :
    ∃ t, (install_forward env).1 = .readInputs :: t := by
  unfold install_forward read_inputs
  cases env.readInputsErr <;> simp [seqStep]

theorem install_vsa_trace_proceed (env : Env)
    (hpre : pre_install_vsa env = .ok false) :
    ∃ extra, (install_vsa env).1 = (install_forward env).1 ++ extra := by
  rcases hf : install_forward env with ⟨tf, rf⟩
  unfold install_vsa
  rw [hpre, hf]
  cases rf with
  | ok u => exact ⟨[], by simp⟩
  | error e =>
    cases e
    case storagePoolCreationFailed =>
      rcases hn : vsa_network_destroy env with ⟨t2, r2⟩
      cases r2 <;> exact ⟨t2, by simp⟩
    case vmCreateFailed =>
      rcases hr : roll_back_installation env with ⟨t2, r2⟩
      cases r2 <;> exact ⟨t2, by simp⟩
    all_goals exact ⟨[], by simp⟩

/-- C4: when the pre-install status query reports state code 1 or 3 for
the configured VM name, `install_vsa` exits 0 with an empty trace — no
disk resolution, document assembly or provisioning call is issued; for
every other reported state code (including the not-found case, which
`_get_vsa_vm_status` reports as code 0) the workflow proceeds with a
fresh installation, its first step being the input/disk-resolution
step. -/
theorem install_idempotency_guard (env : Env) (s : Nat)
    (hc : env.configOk = true) (hs : get_vsa_vm_status env = .ok s) :
    ((s = 1 ∨ s = 3) → install_vsa env = ([], .exited 0)) ∧
    (¬(s = 1 ∨ s = 3) → ∃ t, (install_vsa env).1 = .readInputs :: t) := by
  have hpre : pre_install_vsa env = .ok (s == 1 || s == 3) := by
    simp [pre_install_vsa, hc, hs]
  constructor
  · intro h
    have hb : (s == 1 || s == 3) = true := by
      rcases h with h | h <;> simp [h]
    rw [hb] at hpre
    simp [install_vsa, hpre]
  · intro h
    push_neg at h
    have hb : (s == 1 || s == 3) = false := by simp [h.1, h.2]
    rw [hb] at hpre
    obtain ⟨t, ht⟩ := install_forward_head env
    obtain ⟨extra, hex⟩ := install_vsa_trace_proceed env hpre
    exact ⟨t ++ extra, by rw [hex, ht]; simp⟩

theorem install_idempotency_guard_witness :
    install_vsa { baseEnv with vmLookup := some 1 } = ([], .exited 0) :=
  (install_idempotency_guard { baseEnv with vmLookup := some 1 } 1 rfl rfl).1
    (Or.inl rfl)

/-! Claim C10: tier-file auto-tiering fill. -/

theorem fill_tiered_phase2 (t0 t1 : List String) :
    ∀ (skel : List DiskEntry) (t1c t1i : Nat),
      t1i + t1c = t1.length → skel.length = t1c →
      fill_disks_tiered t0 t1 0 t1c t1i skel =
        some (List.zipWith fillTier1Slot (t1.drop t1i) skel) := by
  intro skel
  induction skel with
  | nil => intro t1c t1i h1 h2; simp [fill_disks_tiered]
  | cons e es ih =>
    intro t1c t1i h1 h2
    cases t1c with
    | zero => simp at h2
    | succ m =>
      simp only [List.length_cons] at h2
      have hlen : t1i < t1.length := by omega
      have hget : t1[t1i]? = some t1[t1i] := List.getElem?_eq_getElem hlen
      have hdrop : t1.drop t1i = t1[t1i] :: t1.drop (t1i + 1) :=
        List.drop_eq_getElem_cons hlen
      have hrec := ih m (t1i + 1) (by omega) (by omega)
      rw [fill_disks_tiered]
      simp only [ne_eq, not_true_eq_false, if_false, Nat.succ_sub_one, hget,
        Nat.succ_pos, if_true, hrec, Option.map_some']
      rw [hdrop, List.zipWith_cons_cons]
      rfl

theorem fill_tiered_phase1 (t0 t1 : List String) :
    ∀ (t0c : Nat) (skel : List DiskEntry),
      t0c ≤ t0.length → skel.length = t0c + t1.length →
      fill_disks_tiered t0 t1 t0c t1.length 0 skel =
        some (List.zipWith fillTier0Slot (t0.take t0c).reverse (skel.take t0c) ++
              List.zipWith fillTier1Slot t1 (skel.drop t0c)) := by
  intro t0c
  induction t0c with
  | zero =>
    intro skel h1 h2
    simpa using fill_tiered_phase2 t0 t1 skel t1.length 0 (by omega)
      (by simpa using h2)
  | succ n ih =>
    intro skel h1 h2
    cases skel with
    | nil => simp at h2; omega
    | cons e es =>
      simp only [List.length_cons] at h2
      have hn : n < t0.length := by omega
      have hget : t0[n]? = some t0[n] := List.getElem?_eq_getElem hn
      have htake : (t0.take (n + 1)).reverse = t0[n] :: (t0.take n).reverse := by
        rw [← List.take_concat_get' t0 n hn, List.reverse_append]
        simp
      have hrec := ih es (by omega) (by omega)
      rw [fill_disks_tiered]
      rw [if_pos (Nat.succ_ne_zero n)]
      simp only [Nat.succ_sub_one, hget, hrec, Option.map_some']
      rw [htake, List.take_succ_cons, List.drop_succ_cons,
        List.zipWith_cons_cons, List.cons_append]
      rfl

/-- C10: with a tier file supplied and auto-tiering enabled, the fill
loop of `_initialize_default_json` assigns the Tier-0 device slots of
the skeleton the Tier-0 list in REVERSE order, writing `Location` and
an empty `Size` but no `Tier` label on those entries (`fillTier0Slot`
leaves the `tier` field untouched), and then fills the following slots
with the Tier-1 list in its given order, each with `Location`, empty
`Size`, and the explicit label Tier 1. -/
theorem tiered_fill_reverse_order (t0 t1 : List String)
    (skel : List DiskEntry) (h : skel.length = t0.length + t1.length) :
    fill_disks_tiered t0 t1 t0.length t1.length 0 skel =
      some (List.zipWith fillTier0Slot t0.reverse (skel.take t0.length) ++
            List.zipWith fillTier1Slot t1 (skel.drop t0.length)) ∧
    (∀ d e, (fillTier0Slot d e).tier = e.tier) ∧
    (∀ d e, (fillTier1Slot d e).tier = some "Tier 1") := by
  refine ⟨?_, fun d e => rfl, fun d e => rfl⟩
  have hmain := fill_tiered_phase1 t0 t1 t0.length skel le_rfl h
  simpa [List.take_length] using hmain

theorem tiered_fill_reverse_order_witness :
    fill_disks_tiered ["t0a", "t0b"] ["t1a"] 2 1 0
        [freshEntry, freshEntry, freshEntry] =
      some [fillTier0Slot "t0b" freshEntry, fillTier0Slot "t0a" freshEntry,
            fillTier1Slot "t1a" freshEntry] :=
  (tiered_fill_reverse_order ["t0a", "t0b"] ["t1a"]
      [freshEntry, freshEntry, freshEntry] rfl).1

end StorevirtualInstaller
